import Mathlib

/-!
Verification of the adaptive weighting and scoring engine of the vendor-evaluation
repository.  The Python sources `src/agents/weight_adjuster.py` and
`src/agents/synthesizer.py` are shallowly embedded: dictionaries become
association lists (insertion-ordered, unique keys), floats become exact
rationals (`ℚ`), and Python's stable `sort`/`sorted` becomes Mathlib's
`List.insertionSort` (also stable; any two stable sorts of a list under the
same total preorder agree).  String-processing primitives used by the code
(lower/upper casing, substring search, strip, split, one-decimal formatting)
are modelled by executable functions over `List Char`.
-/

namespace VendorEval

/-! ### String primitives (Python `str` operations used by the source) -/

/-- Is the first list a prefix of the second (Char lists, Python slicing semantics)? -/
def listPre : List Char → List Char → Bool
  | [], _ => true
  | _ :: _, [] => false
  | a :: as, b :: bs => a == b && listPre as bs

/-- Does the second list contain the first as a contiguous sublist? -/
def listSub (needle : List Char) : List Char → Bool
  | [] => needle.isEmpty
  | c :: rest => listPre needle (c :: rest) || listSub needle rest

/-- Python's `needle in hay` substring test. -/
def substrOf (needle hay : String) : Bool := listSub needle.toList hay.toList

/-- Python `str.lower` (ASCII, which covers every string the source compares). -/
def strToLower (s : String) : String := String.mk (s.toList.map Char.toLower)

/-- Python `str.upper` (ASCII). -/
def strToUpper (s : String) : String := String.mk (s.toList.map Char.toUpper)

/-- Drop trailing characters satisfying `p`. -/
def dropEndWhile (p : Char → Bool) (l : List Char) : List Char :=
  (l.reverse.dropWhile p).reverse

/-- Python `str.strip()`: remove leading and trailing whitespace. -/
def pyStrip (s : String) : String :=
  String.mk (dropEndWhile Char.isWhitespace (s.toList.dropWhile Char.isWhitespace))

/-- Python `str.lstrip(chars)`: remove leading characters drawn from `chars`. -/
def pyLstrip (s : String) (chars : String) : String :=
  String.mk (s.toList.dropWhile (fun c => chars.toList.contains c))

/-- Split a character list on a separator character; `Python str.split(sep)` semantics
(the empty input yields one empty field). -/
def splitOnChar (sep : Char) : List Char → List (List Char)
  | [] => [[]]
  | c :: rest =>
    let groups := splitOnChar sep rest
    if c = sep then [] :: groups
    else
      match groups with
      | [] => [[c]]
      | g :: gs => (c :: g) :: gs

/-- Python `text.split("\n")`. -/
def splitLines (s : String) : List String := (splitOnChar '\n' s.toList).map String.mk

/-- Python `sep.join(parts)`. -/
def strJoin (sep : String) : List String → String
  | [] => ""
  | [s] => s
  | s :: rest => s ++ sep ++ strJoin sep rest

/-- Concatenate `n` copies of a string (Python `s * n`). -/
def strRepeat (s : String) : Nat → String
  | 0 => ""
  | n + 1 => s ++ strRepeat s n

/-- Python slicing `s[:n]` (by characters). -/
def strTake (s : String) (n : Nat) : String := String.mk (s.toList.take n)

/-- Python `str.startswith`. -/
def strStarts (s pre : String) : Bool := listPre pre.toList s.toList

/-- Helper for `pyTitle`: the Bool records whether the previous character was alphabetic. -/
def titleChars : Bool → List Char → List Char
  | _, [] => []
  | prevAlpha, c :: rest =>
    (if prevAlpha then c.toLower else c.toUpper) :: titleChars c.isAlpha rest

/-- Python `str.title()`: capitalise the first letter of each word. -/
def pyTitle (s : String) : String := String.mk (titleChars false s.toList)

/-- Python `str.replace` specialised to a single-character pattern; the source only
ever replaces "_" with " ". -/
def replaceChar (s : String) (pat rep : Char) : String :=
  String.mk (s.toList.map (fun c => if c = pat then rep else c))

/-- Display form of a criterion identifier: `criterion.replace("_", " ").title()`. -/
def criterion_display (c : String) : String := pyTitle (replaceChar c '_' ' ')

/-- Python `str(list_of_strings)`, e.g. `"[\x27Go\x27, \x27Rust\x27]"`; faithful for
elements free of quote and escape characters, which covers the priority lists and
SDK names the source handles. -/
def pyReprStrList (l : List String) : String :=
  "[" ++ strJoin ", " (l.map (fun s => "\x27" ++ s ++ "\x27")) ++ "]"

/-- Python `line[0].isdigit()` guarded by nonemptiness. -/
def firstIsDigit (s : String) : Bool :=
  match s.toList with
  | [] => false
  | c :: _ => c.isDigit

/-- Python `line.split(":", 1)[1]`: everything after the first colon.  The source
only reaches this on lines that contain a colon; on colon-free input we return "". -/
def afterFirstColon (s : String) : String :=
  String.mk ((s.toList.dropWhile (fun c => !(c == ':'))).drop 1)

/-- Render a rational with one decimal digit, rounding half upward; models Python
`"{:.1f}"` (Python rounds the underlying binary double half-to-even; the
difference affects only rendered digits, which no claim depends on). -/
def fmt1 (q : ℚ) : String :=
  let n : ℤ := Rat.floor (q * 10 + 1 / 2)
  let sign := if n < 0 then "-" else ""
  let m := n.natAbs
  sign ++ toString (m / 10) ++ "." ++ toString (m % 10)

/-! ### Data model (`weight_adjuster.py`, `researcher.py`) -/

/-- Evaluation context dictionary (`context` in the source); absent keys are the
Python defaults the source supplies via `.get`. -/
structure Context where
  tech_stack : List String := []
  domain : String := ""
  region : String := ""
  scale : String := ""
  priorities : List String := []
  compliance : List String := []
deriving DecidableEq

/-- A single evaluation criterion with its weight (`CriterionWeight` dataclass). -/
structure CriterionWeight where
  name : String
  initial_weight : ℚ
  current_weight : ℚ
  adjustment_reason : String := ""
  triggered_by : List String := []
deriving DecidableEq

/-- A single weight adjustment event (`WeightAdjustment` dataclass). -/
structure WeightAdjustment where
  criterion : String
  discovery : String
  evidence : String
  weight_before : ℚ
  weight_after : ℚ
  additional_research_triggered : List String := []
deriving DecidableEq

/-- A hidden-risk record (the `Dict[str, str]` entries of `findings.hidden_risks`). -/
structure RiskRecord where
  type : String
  severity : String := ""
  description : String := ""
  evidence : String := ""
deriving DecidableEq

/-- A research dimension holding free analysis text (`{"analysis": ...}`). -/
structure DimensionFindings where
  analysis : String := ""
deriving DecidableEq

/-- The `sdk_quality` dimension: analysis text plus the capability-support map. -/
structure SdkFindings where
  analysis : String := ""
  tech_stack_support : List (String × Bool) := []
deriving DecidableEq

/-- The `compliance` dimension: analysis text plus declared requirements. -/
structure ComplianceFindings where
  analysis : String := ""
  required : List String := []
deriving DecidableEq

/-- Research findings for a single vendor (`ResearchFindings` dataclass; the
timestamp and evidence-source metadata are never read by the core and are omitted). -/
structure ResearchFindings where
  vendor_name : String
  sdk_quality : SdkFindings := {}
  api_quality : DimensionFindings := {}
  integration_complexity : DimensionFindings := {}
  performance : DimensionFindings := {}
  uptime_reliability : DimensionFindings := {}
  support_quality : DimensionFindings := {}
  scalability : DimensionFindings := {}
  pricing : DimensionFindings := {}
  vendor_health : DimensionFindings := {}
  compliance : ComplianceFindings := {}
  hidden_risks : List RiskRecord := []
deriving DecidableEq

/-- A typed discovery record (the dictionaries built by
`_extract_significant_discoveries`). -/
structure Discovery where
  type : String
  vendor : String
  description : String
  evidence : String
  affected_criterion : String
deriving DecidableEq

/-- The criterion table: a Python dict `name -> CriterionWeight`, insertion-ordered. -/
abbrev WeightTable := List (String × CriterionWeight)

/-- Dict lookup `weights[k]`. -/
def wtLookup (t : WeightTable) (k : String) : Option CriterionWeight := t.lookup k

/-- Dict membership `k in weights`. -/
def wtContains (t : WeightTable) (k : String) : Bool := (wtLookup t k).isSome

/-- Update the value stored under key `k` (keys are unique in a Python dict, so
mapping over all matching entries is the dict update). -/
def wtUpdate (t : WeightTable) (k : String) (f : CriterionWeight → CriterionWeight) :
    WeightTable :=
  t.map (fun p => if p.1 = k then (p.1, f p.2) else p)

/-- Sum of the `current_weight` column. -/
def sumCurrent (t : WeightTable) : ℚ := (t.map (fun p => p.2.current_weight)).sum

/-! ### `DynamicWeightAdjuster` -/

/-- The default weight allocation of `get_initial_weights`. -/
def default_weights : List (String × ℚ) :=
  [("sdk_quality", 15), ("api_quality", 10), ("integration_complexity", 15),
   ("performance", 10), ("uptime_reliability", 15), ("support_quality", 10),
   ("scalability", 10), ("pricing", 10), ("vendor_health", 5), ("compliance", 0)]

/-- The compliance branch of `get_initial_weights`: set compliance to 15 and scale
every other criterion by `(100 - 15) / total_other`. -/
def apply_compliance_allocation (dw : List (String × ℚ)) : List (String × ℚ) :=
  let dw1 := dw.map (fun p => if p.1 = "compliance" then (p.1, (15 : ℚ)) else p)
  let total_other := ((dw1.filter (fun p => p.1 != "compliance")).map (fun p => p.2)).sum
  let factor := (100 - ((dw1.lookup "compliance").getD 0)) / total_other
  dw1.map (fun p => if p.1 != "compliance" then (p.1, p.2 * factor) else p)

/-- The condition `"security" in str(priorities).lower() or "fintech" in domain.lower()`. -/
def security_signal (context : Context) : Bool :=
  substrOf "security" (strToLower (pyReprStrList context.priorities)) ||
    substrOf "fintech" (strToLower context.domain)

/-- The priority branch of `get_initial_weights`: bump compliance, uptime and vendor
health, then renormalise every entry to `(v / total) * 100`. -/
def apply_priority_bump (dw : List (String × ℚ)) : List (String × ℚ) :=
  let dw2 := dw.map (fun p =>
    if p.1 = "compliance" then (p.1, p.2 + 5)
    else if p.1 = "uptime_reliability" then (p.1, p.2 + 5)
    else if p.1 = "vendor_health" then (p.1, p.2 + 3)
    else p)
  let total := (dw2.map (fun p => p.2)).sum
  dw2.map (fun p => (p.1, (p.2 / total) * 100))

/-- `DynamicWeightAdjuster.get_initial_weights`. -/
def get_initial_weights (context : Context) : WeightTable :=
  let dw := default_weights
  let dw := if context.compliance.isEmpty then dw else apply_compliance_allocation dw
  let dw := if security_signal context then apply_priority_bump dw else dw
  dw.map (fun p => (p.1, CriterionWeight.mk p.1 p.2 p.2 "" []))

/-- `DynamicWeightAdjuster._indicates_issue`. -/
def indicates_issue (text : String) (keywords : List String) : Bool :=
  keywords.any (fun keyword => substrOf keyword (strToLower text))

/-- `DynamicWeightAdjuster._map_risk_to_criterion`. -/
def map_risk_to_criterion (risk_type : String) : String :=
  (([("maintainer_health", "vendor_health"), ("pricing_trap", "pricing"),
     ("vendor_lockin", "integration_complexity")] : List (String × String)).lookup
    risk_type).getD "vendor_health"

/-- Discoveries extracted from one vendor's findings, in the source's rule order:
uptime, missing SDK, pricing, hidden risks, compliance gap. -/
def extract_discoveries_for (findings : ResearchFindings) : List Discovery :=
  let vn := findings.vendor_name
  let uptime_analysis := findings.uptime_reliability.analysis
  let uptime : List Discovery :=
    if indicates_issue uptime_analysis ["outage", "downtime", "incident", "unavailable"] then
      [⟨"uptime_issue", vn, vn ++ " has recent uptime issues", strTake uptime_analysis 200,
        "uptime_reliability"⟩]
    else []
  let sdk_support := findings.sdk_quality.tech_stack_support
  let missing_sdks := (sdk_support.filter (fun p => !p.2)).map (fun p => p.1)
  let sdk : List Discovery :=
    if !sdk_support.isEmpty && !(sdk_support.all (fun p => p.2)) then
      if !missing_sdks.isEmpty then
        [⟨"missing_sdk", vn, vn ++ " missing SDK for " ++ strJoin ", " missing_sdks,
          "No official support for " ++ pyReprStrList missing_sdks, "integration_complexity"⟩]
      else []
    else []
  let pricing_analysis := findings.pricing.analysis
  let pricing : List Discovery :=
    if indicates_issue pricing_analysis ["expensive", "jump", "hidden fee", "trap"] then
      [⟨"pricing_concern", vn, vn ++ " has pricing concerns", strTake pricing_analysis 200,
        "pricing"⟩]
    else []
  let risks : List Discovery := findings.hidden_risks.map (fun risk =>
    ⟨"hidden_risk_" ++ risk.type, vn, vn ++ ": " ++ strTake risk.description 100,
      risk.evidence, map_risk_to_criterion risk.type⟩)
  let compliance_analysis := findings.compliance.analysis
  let required := findings.compliance.required
  let comp : List Discovery :=
    if !required.isEmpty && indicates_issue compliance_analysis
        ["not certified", "lacking", "missing"] then
      [⟨"compliance_gap", vn, vn ++ " may have compliance gaps",
        strTake compliance_analysis 200, "compliance"⟩]
    else []
  uptime ++ sdk ++ pricing ++ risks ++ comp

/-- `DynamicWeightAdjuster._extract_significant_discoveries`. -/
def extract_significant_discoveries (research_findings : List ResearchFindings) :
    List Discovery :=
  research_findings.foldr (fun findings acc => extract_discoveries_for findings ++ acc) []

/-- The fixed base-delta table of `_calculate_adjustment_amount`. -/
def base_adjustments : List (String × ℚ) :=
  [("uptime_issue", 10), ("missing_sdk", 8), ("pricing_concern", 7),
   ("compliance_gap", 12), ("hidden_risk_maintainer_health", 5),
   ("hidden_risk_pricing_trap", 8), ("hidden_risk_vendor_lockin", 4)]

/-- `DynamicWeightAdjuster._calculate_adjustment_amount`. -/
def calculate_adjustment_amount (discovery : Discovery) (context : Context) : ℚ :=
  let base_adjustment := (base_adjustments.lookup discovery.type).getD 5
  if context.priorities.any (fun priority =>
      substrOf (strToLower priority) (strToLower discovery.affected_criterion)) then
    base_adjustment * 1.5
  else
    base_adjustment

/-- `DynamicWeightAdjuster._process_discovery`. -/
def process_discovery (discovery : Discovery) (current_weights : WeightTable)
    (context : Context) : Option WeightAdjustment :=
  if discovery.affected_criterion = "" then none
  else
    match wtLookup current_weights discovery.affected_criterion with
    | none => none
    | some criterion_weight =>
      let adjustment_amount := calculate_adjustment_amount discovery context
      if adjustment_amount = 0 then none
      else
        let weight_before := criterion_weight.current_weight
        let weight_after := max 5 (min 40 (weight_before + adjustment_amount))
        let additional :=
          if discovery.type = "uptime_issue" then ["SLA investigation"]
          else if discovery.type = "missing_sdk" then ["Custom integration effort estimate"]
          else []
        some ⟨discovery.affected_criterion, discovery.description, discovery.evidence,
          weight_before, weight_after, additional⟩

/-- One iteration of the discovery loop in `adjust_weights`: apply the adjustment
(if any) to the table and append the audit record. -/
def apply_discovery (context : Context) (acc : WeightTable × List WeightAdjustment)
    (discovery : Discovery) : WeightTable × List WeightAdjustment :=
  match process_discovery discovery acc.1 context with
  | none => acc
  | some adjustment =>
    (wtUpdate acc.1 adjustment.criterion (fun c =>
        { c with current_weight := adjustment.weight_after,
                 triggered_by := c.triggered_by ++ [discovery.description] }),
      acc.2 ++ [adjustment])

/-- `DynamicWeightAdjuster._normalize_weights`. -/
def normalize_weights (weights : WeightTable) : WeightTable :=
  let total := sumCurrent weights
  if total = 0 then
    weights.map (fun p => (p.1, { p.2 with current_weight := 100 / (weights.length : ℚ) }))
  else
    weights.map (fun p => (p.1, { p.2 with current_weight := p.2.current_weight * (100 / total) }))

/-- `DynamicWeightAdjuster.adjust_weights`; the first argument models
`config.agent.enable_dynamic_weighting`. -/
def adjust_weights (enable_dynamic_weighting : Bool) (initial_weights : WeightTable)
    (research_findings : List ResearchFindings) (context : Context) :
    WeightTable × List WeightAdjustment :=
  if !enable_dynamic_weighting then (initial_weights, [])
  else
    let current_weights := initial_weights.map (fun p =>
      (p.1, CriterionWeight.mk p.2.name p.2.initial_weight p.2.current_weight "" []))
    let discoveries := extract_significant_discoveries research_findings
    let folded := discoveries.foldl (apply_discovery context) (current_weights, [])
    (normalize_weights folded.1, folded.2)

/-! ### `RecommendationSynthesizer` -/

/-- Positive sentiment keywords of `_score_from_analysis`. -/
def positive_words : List String :=
  ["excellent", "great", "strong", "robust", "high quality", "reliable", "fast",
   "comprehensive"]

/-- Negative sentiment keywords of `_score_from_analysis`. -/
def negative_words : List String :=
  ["poor", "weak", "limited", "slow", "unreliable", "lacking", "difficult", "complex",
   "expensive"]

/-- `RecommendationSynthesizer._score_from_analysis`. -/
def score_from_analysis (analysis : String) (inverse : Bool := false) : ℚ :=
  if analysis = "" then 5
  else
    let analysis_lower := strToLower analysis
    let positive_count := (positive_words.filter (fun word => substrOf word analysis_lower)).length
    let negative_count := (negative_words.filter (fun word => substrOf word analysis_lower)).length
    let favorable := if inverse then negative_count else positive_count
    let unfavorable := if inverse then positive_count else negative_count
    let score : ℚ :=
      if unfavorable < favorable then 7 + ((min favorable 3 : ℕ) : ℚ) * 1
      else if favorable < unfavorable then 5 - ((min unfavorable 4 : ℕ) : ℚ) * 1
      else 6
    max 1 (min 10 score)

/-- Score for a single vendor (`VendorScore` dataclass; Python's
`evidence: Dict[str, str]` becomes an association list, and the `alternatives`
dictionaries elsewhere keep only their single "text" value). -/
structure VendorScore where
  vendor_name : String
  criterion_scores : List (String × ℚ)
  weighted_score : ℚ
  strengths : List String
  weaknesses : List String
  evidence : List (String × String)
deriving DecidableEq

instance : Inhabited CriterionWeight := ⟨⟨"", 0, 0, "", []⟩⟩

instance : Inhabited VendorScore := ⟨⟨"", [], 0, [], [], []⟩⟩

/-- Descending order on scored criteria, as used by Python's stable
`sorted(..., key=lambda x: x[1], reverse=True)`. -/
def score_desc (a b : String × ℚ) : Prop := b.2 ≤ a.2

instance : DecidableRel score_desc := fun a b => inferInstanceAs (Decidable (b.2 ≤ a.2))

instance : IsTotal (String × ℚ) score_desc := ⟨fun a b => le_total b.2 a.2⟩

instance : IsTrans (String × ℚ) score_desc := ⟨fun _ _ _ h1 h2 => le_trans h2 h1⟩

/-- Descending order on vendor scores, as used by
`vendor_scores.sort(key=lambda x: x.weighted_score, reverse=True)`. -/
def vs_desc (a b : VendorScore) : Prop := b.weighted_score ≤ a.weighted_score

instance : DecidableRel vs_desc := fun a b =>
  inferInstanceAs (Decidable (b.weighted_score ≤ a.weighted_score))

instance : IsTotal VendorScore vs_desc := ⟨fun a b => le_total b.weighted_score a.weighted_score⟩

instance : IsTrans VendorScore vs_desc := ⟨fun _ _ _ h1 h2 => le_trans h2 h1⟩

/-- Descending order on weight-table entries, as used by
`sorted(weights.items(), key=lambda x: x[1].current_weight, reverse=True)`. -/
def weight_desc (a b : String × CriterionWeight) : Prop :=
  b.2.current_weight ≤ a.2.current_weight

instance : DecidableRel weight_desc := fun a b =>
  inferInstanceAs (Decidable (b.2.current_weight ≤ a.2.current_weight))

instance : IsTotal (String × CriterionWeight) weight_desc :=
  ⟨fun a b => le_total b.2.current_weight a.2.current_weight⟩

instance : IsTrans (String × CriterionWeight) weight_desc :=
  ⟨fun _ _ _ h1 h2 => le_trans h2 h1⟩

/-- The fixed ten-criterion score dictionary built at the top of `_score_vendors`. -/
def criterionScoresOf (findings : ResearchFindings) : List (String × ℚ) :=
  [("sdk_quality", score_from_analysis findings.sdk_quality.analysis),
   ("api_quality", score_from_analysis findings.api_quality.analysis),
   ("integration_complexity", score_from_analysis findings.integration_complexity.analysis true),
   ("performance", score_from_analysis findings.performance.analysis),
   ("uptime_reliability", score_from_analysis findings.uptime_reliability.analysis),
   ("support_quality", score_from_analysis findings.support_quality.analysis),
   ("scalability", score_from_analysis findings.scalability.analysis),
   ("pricing", score_from_analysis findings.pricing.analysis true),
   ("vendor_health", score_from_analysis findings.vendor_health.analysis),
   ("compliance", score_from_analysis findings.compliance.analysis)]

/-- `RecommendationSynthesizer._format_strength`. -/
def format_strength (criterion : String) (score : ℚ) : String :=
  "Strong " ++ criterion_display criterion ++ " (Score: " ++ fmt1 score ++ "/10)"

/-- `RecommendationSynthesizer._format_weakness`. -/
def format_weakness (criterion : String) (score : ℚ) : String :=
  "Weaker " ++ criterion_display criterion ++ " (Score: " ++ fmt1 score ++ "/10)"

/-- `RecommendationSynthesizer._extract_strengths_weaknesses`. -/
def extract_strengths_weaknesses (findings : ResearchFindings)
    (scores : List (String × ℚ)) : List String × List String :=
  let sorted_criteria := List.insertionSort score_desc scores
  let strengths := ((sorted_criteria.take 3).filter (fun p => decide (7 ≤ p.2))).map
    (fun p => format_strength p.1 p.2)
  let bottom := sorted_criteria.drop (sorted_criteria.length - 3)
  let weaknesses := ((bottom.filter (fun p => decide (p.2 ≤ 5))).map
      (fun p => format_weakness p.1 p.2)) ++
    findings.hidden_risks.map (fun risk =>
      pyTitle (replaceChar risk.type '_' ' ') ++ ": " ++ strTake risk.description 80)
  (strengths.take 3, weaknesses.take 3)

/-- The body of the per-vendor loop of `_score_vendors`: build one `VendorScore`. -/
def score_vendor (weights : WeightTable) (findings : ResearchFindings) : VendorScore :=
  let criterion_scores := criterionScoresOf findings
  let weighted_score := ((criterion_scores.filter (fun p => wtContains weights p.1)).map
    (fun p => p.2 * (((wtLookup weights p.1).getD default).current_weight / 100))).sum
  let sw := extract_strengths_weaknesses findings criterion_scores
  let evidence := [("sdk_quality", strTake findings.sdk_quality.analysis 150),
    ("api_quality", strTake findings.api_quality.analysis 150),
    ("uptime_reliability", strTake findings.uptime_reliability.analysis 150),
    ("pricing", strTake findings.pricing.analysis 150)]
  ⟨findings.vendor_name, criterion_scores, weighted_score, sw.1, sw.2, evidence⟩

/-- The vendor scores of `_score_vendors` in input (findings) order, before sorting. -/
def vendor_scores_list (research_findings : List ResearchFindings)
    (weights : WeightTable) : List VendorScore :=
  research_findings.map (score_vendor weights)

/-- `RecommendationSynthesizer._score_vendors`: score every vendor, then sort
descending by weighted score.  Python's `list.sort` is stable; so is
`insertionSort`, and any two stable sorts under the same total preorder agree. -/
def score_vendors (research_findings : List ResearchFindings)
    (weights : WeightTable) : List VendorScore :=
  List.insertionSort vs_desc (vendor_scores_list research_findings weights)

/-- The criteria that receive a row in the comparison matrix: the loop
`for criterion, weight_obj in sorted_weights[:8]` with the
`if weight_obj.current_weight < 1.0: continue` filter. -/
def matrix_criteria (weights : WeightTable) : WeightTable :=
  ((List.insertionSort weight_desc weights).take 8).filter
    (fun p => !decide (p.2.current_weight < 1))

/-- One criterion row of the comparison matrix. -/
def matrix_row (vendor_scores : List VendorScore) (p : String × CriterionWeight) : String :=
  "| " ++ criterion_display p.1 ++ " (" ++ fmt1 p.2.current_weight ++ "%) | " ++
    strJoin " | " (vendor_scores.map
      (fun v => fmt1 ((v.criterion_scores.lookup p.1).getD 0) ++ "/10")) ++ " |"

/-- The `lines` list built by `_generate_comparison_matrix`. -/
def generate_comparison_matrix_lines (vendor_scores : List VendorScore)
    (weights : WeightTable) : List String :=
  let header := "| Criterion (Weight) | " ++
    strJoin " | " (vendor_scores.map (fun v => v.vendor_name)) ++ " |"
  let sep1 := "|" ++ strRepeat "---|" (vendor_scores.length + 1)
  let rows := (matrix_criteria weights).map (matrix_row vendor_scores)
  let sep2 := "|---|" ++ strRepeat "---|" vendor_scores.length
  let total_row := "| **Weighted Score** | " ++
    strJoin " | " (vendor_scores.map (fun v => "**" ++ fmt1 v.weighted_score ++ "/10**")) ++
    " |"
  [header, sep1] ++ rows ++ [sep2, total_row]

/-- `RecommendationSynthesizer._generate_comparison_matrix`. -/
def generate_comparison_matrix (vendor_scores : List VendorScore)
    (weights : WeightTable) : String :=
  strJoin "\n" (generate_comparison_matrix_lines vendor_scores weights)

/-- A key-discovery record (the dictionaries built by `_extract_key_discoveries`). -/
structure KeyDiscovery where
  finding : String
  evidence : String
  impact : String
  triggered : String
deriving DecidableEq

/-- `RecommendationSynthesizer._extract_key_discoveries`. -/
def extract_key_discoveries (weight_adjustments : List WeightAdjustment) :
    List KeyDiscovery :=
  weight_adjustments.map (fun adj =>
    ⟨adj.discovery, strTake adj.evidence 150,
      "Increased " ++ criterion_display adj.criterion ++ " weight from " ++
        fmt1 adj.weight_before ++ "% to " ++ fmt1 adj.weight_after ++ "%",
      if adj.additional_research_triggered.isEmpty then "None"
      else strJoin ", " adj.additional_research_triggered⟩)

/-- A hidden risk tagged with its vendor (`risk_with_vendor` in
`_collect_hidden_risks`). -/
structure VendorRisk where
  vendor : String
  risk : RiskRecord
deriving DecidableEq

/-- `RecommendationSynthesizer._collect_hidden_risks`. -/
def collect_hidden_risks (research_findings : List ResearchFindings) : List VendorRisk :=
  research_findings.foldr
    (fun findings acc =>
      findings.hidden_risks.map (fun r => VendorRisk.mk findings.vendor_name r) ++ acc) []

/-- `RecommendationSynthesizer._format_context_summary`. -/
def format_context_summary (context : Context) : String :=
  let parts : List String :=
    (if !context.tech_stack.isEmpty then ["Tech Stack: " ++ strJoin ", " context.tech_stack]
     else []) ++
    (if context.domain != "" then ["Domain: " ++ context.domain] else []) ++
    (if context.region != "" then ["Region: " ++ context.region] else []) ++
    (if context.scale != "" then ["Scale: " ++ context.scale] else []) ++
    (if !context.priorities.isEmpty then
      ["Priorities: " ++ strJoin ", " context.priorities] else [])
  strJoin " | " parts

/-- Final recommendation output (`FinalRecommendation` dataclass; the
`alternatives` dictionaries keep only their single "text" value, and
`final_weights` is the name-to-current-weight map). -/
structure FinalRecommendation where
  recommended_vendor : String
  rationale : String
  trade_offs : List String
  alternatives : List String
  next_steps : List String
  context_summary : String
  candidates : List String
  key_discoveries : List KeyDiscovery
  weight_adjustments : List WeightAdjustment
  final_weights : List (String × ℚ)
  vendor_scores : List VendorScore
  comparison_matrix : String
  hidden_risks : List VendorRisk
deriving DecidableEq

/-- The mutable locals of the parsing loop in `_parse_recommendation`. -/
structure ParseState where
  recommended_vendor : String := ""
  rationale : String := ""
  trade_offs : List String := []
  alternatives : List String := []
  next_steps : List String := []
  current_section : Option String := none
deriving DecidableEq

/-- One iteration of the `for line in lines` loop of `_parse_recommendation`. -/
def parse_line (st : ParseState) (raw_line : String) : ParseState :=
  let line := pyStrip raw_line
  if substrOf "RECOMMENDED VENDOR:" (strToUpper line) then
    { st with recommended_vendor := pyStrip (afterFirstColon line), current_section := none }
  else if substrOf "RATIONALE:" (strToUpper line) then
    { st with current_section := some "rationale" }
  else if substrOf "TRADE-OFFS:" (strToUpper line) || substrOf "TRADE-OFF:" (strToUpper line) then
    { st with current_section := some "tradeoffs" }
  else if substrOf "ALTERNATIVES:" (strToUpper line) ||
      substrOf "ALTERNATIVE:" (strToUpper line) then
    { st with current_section := some "alternatives" }
  else if substrOf "NEXT STEPS:" (strToUpper line) then
    { st with current_section := some "nextsteps" }
  else if line != "" then
    if st.current_section == some "rationale" then
      { st with rationale := st.rationale ++ line ++ " " }
    else if st.current_section == some "tradeoffs" && strStarts line "-" then
      { st with trade_offs := st.trade_offs ++ [pyLstrip line "- "] }
    else if st.current_section == some "alternatives" && strStarts line "-" then
      { st with alternatives := st.alternatives ++ [pyLstrip line "- "] }
    else if st.current_section == some "nextsteps" &&
        (strStarts line "-" || firstIsDigit line) then
      { st with next_steps := st.next_steps ++ [pyLstrip line "0123456789.-) "] }
    else st
  else st

/-- `RecommendationSynthesizer._parse_recommendation` (the `research_findings`
parameter is accepted but never read, as in the source). -/
def parse_recommendation (recommendation_text : String) (context : Context)
    (candidates : List String) (research_findings : List ResearchFindings)
    (key_discoveries : List KeyDiscovery) (weight_adjustments : List WeightAdjustment)
    (final_weights : WeightTable) (vendor_scores : List VendorScore)
    (comparison_matrix : String) (hidden_risks : List VendorRisk) : FinalRecommendation :=
  let st := (splitLines recommendation_text).foldl parse_line {}
  let recommended_vendor :=
    if st.recommended_vendor == "" && !vendor_scores.isEmpty then
      (vendor_scores.headI).vendor_name
    else st.recommended_vendor
  let rationale :=
    if st.recommended_vendor == "" && !vendor_scores.isEmpty then
      "Recommended based on highest weighted score (" ++
        fmt1 (vendor_scores.headI).weighted_score ++ "/10)"
    else st.rationale
  { recommended_vendor := recommended_vendor
    rationale := pyStrip rationale
    trade_offs := st.trade_offs
    alternatives := st.alternatives
    next_steps := st.next_steps
    context_summary := format_context_summary context
    candidates := candidates
    key_discoveries := key_discoveries
    weight_adjustments := weight_adjustments
    final_weights := final_weights.map (fun p => (p.1, p.2.current_weight))
    vendor_scores := vendor_scores
    comparison_matrix := comparison_matrix
    hidden_risks := hidden_risks }

/-! ### Helper lemmas -/

/-- Summing a constant over a list multiplies it by the length. -/
theorem sum_map_const_rat {α : Type} (l : List α) (c : ℚ) :
    (l.map (fun _ => c)).sum = (l.length : ℚ) * c := by
  induction l with
  | nil => simp
  | cons a l ih =>
    simp only [List.map_cons, List.sum_cons, ih, List.length_cons]
    push_cast
    ring

/-- Applying one discovery never changes the number of table entries. -/
theorem apply_discovery_length (context : Context) (acc : WeightTable × List WeightAdjustment)
    (d : Discovery) : ((apply_discovery context acc d).1).length = acc.1.length := by
  unfold apply_discovery
  cases process_discovery d acc.1 context with
  | none => rfl
  | some adjustment => simp [wtUpdate]

/-- The discovery loop never changes the number of table entries. -/
theorem foldl_apply_discovery_length (context : Context) (ds : List Discovery)
    (acc : WeightTable × List WeightAdjustment) :
    ((ds.foldl (apply_discovery context) acc).1).length = acc.1.length := by
  induction ds generalizing acc with
  | nil => rfl
  | cons d ds ih => rw [List.foldl_cons, ih, apply_discovery_length]

/-- Setting every current weight of a table to the same constant sums to length times
that constant. -/
theorem sumCurrent_map_const (s : WeightTable) (c : ℚ) :
    sumCurrent (s.map (fun p => (p.1, { p.2 with current_weight := c }))) =
      (s.length : ℚ) * c := by
  induction s with
  | nil => simp [sumCurrent]
  | cons a s ih =>
    simp only [sumCurrent, List.map_cons, List.sum_cons] at ih ⊢
    rw [ih, List.length_cons]
    push_cast
    ring

/-- Scaling every current weight of a table scales its sum. -/
theorem sumCurrent_map_scale (s : WeightTable) (k : ℚ) :
    sumCurrent (s.map (fun p => (p.1, { p.2 with current_weight := p.2.current_weight * k }))) =
      sumCurrent s * k := by
  induction s with
  | nil => simp [sumCurrent]
  | cons a s ih =>
    simp only [sumCurrent, List.map_cons, List.sum_cons] at ih ⊢
    rw [ih]
    ring

/-- Renormalisation makes the current weights of a nonempty table sum to exactly 100. -/
theorem sumCurrent_normalize_weights (t : WeightTable) (h : t ≠ []) :
    sumCurrent (normalize_weights t) = 100 := by
  have hlen : ((t.length : ℚ)) ≠ 0 := by
    have hnz : t.length ≠ 0 := fun h0 => h (List.length_eq_zero.mp h0)
    exact_mod_cast Nat.cast_ne_zero.mpr hnz
  unfold normalize_weights
  by_cases h0 : sumCurrent t = 0
  · rw [if_pos h0, sumCurrent_map_const]
    field_simp
  · rw [if_neg h0, sumCurrent_map_scale]
    field_simp

/-- The weight recorded after a processed discovery is the clamped value. -/
theorem process_discovery_bounds (d : Discovery) (t : WeightTable) (context : Context)
    (adj : WeightAdjustment) (h : process_discovery d t context = some adj) :
    5 ≤ adj.weight_after ∧ adj.weight_after ≤ 40 := by
  unfold process_discovery at h
  by_cases hcrit : d.affected_criterion = ""
  · rw [if_pos hcrit] at h
    exact absurd h (by simp)
  · rw [if_neg hcrit] at h
    cases hl : wtLookup t d.affected_criterion with
    | none =>
      simp only [hl] at h
      exact absurd h (by simp)
    | some cw =>
      simp only [hl] at h
      by_cases hz : calculate_adjustment_amount d context = 0
      · rw [if_pos hz] at h
        exact absurd h (by simp)
      · rw [if_neg hz] at h
        injection h with h2
        subst h2
        constructor
        · exact le_max_left _ _
        · exact max_le (by norm_num) (min_le_left _ _)

/-- Every audit record produced by the discovery loop satisfies `P` provided every
record a single `process_discovery` call can produce does. -/
theorem foldl_apply_discovery_mem (context : Context) (P : WeightAdjustment → Prop)
    (hstep : ∀ d t adj, process_discovery d t context = some adj → P adj)
    (ds : List Discovery) (acc : WeightTable × List WeightAdjustment)
    (hacc : ∀ a ∈ acc.2, P a) :
    ∀ a ∈ (ds.foldl (apply_discovery context) acc).2, P a := by
  induction ds generalizing acc with
  | nil => exact hacc
  | cons d ds ih =>
    rw [List.foldl_cons]
    refine ih _ ?_
    intro b hb
    unfold apply_discovery at hb
    cases hp : process_discovery d acc.1 context with
    | none => rw [hp] at hb; exact hacc b hb
    | some adjustment =>
      rw [hp] at hb
      simp only [List.mem_append, List.mem_singleton] at hb
      rcases hb with hb | hb
      · exact hacc b hb
      · rw [hb]; exact hstep d acc.1 adjustment hp

/-! ### Claims C1 and C2 -/

/-- C1: for every list of research findings, every nonempty initial weight table and
every context, with dynamic weighting enabled the table returned by `adjust_weights`
has current weights summing to exactly 100 (hence certainly within 1e-6 of 100.0);
the proof covers the zero-pre-normalisation-sum branch, where `_normalize_weights`
falls back to an equal split across all criteria. -/
theorem C1_adjust_weights_sum_100 (initial_weights : WeightTable)
    (research_findings : List ResearchFindings) (context : Context)
    (h : initial_weights ≠ []) :
    sumCurrent (adjust_weights true initial_weights research_findings context).1 = 100 := by
  unfold adjust_weights
  simp only [Bool.not_true, Bool.false_eq_true, if_false]
  apply sumCurrent_normalize_weights
  intro hnil
  have hlen := foldl_apply_discovery_length context
    (extract_significant_discoveries research_findings)
    (initial_weights.map (fun p =>
      (p.1, CriterionWeight.mk p.2.name p.2.initial_weight p.2.current_weight "" [])), [])
  rw [hnil] at hlen
  simp only [List.length_nil, List.length_map] at hlen
  exact h (List.length_eq_zero.mp hlen.symm)

/-- Witness for C1 at a concrete one-criterion table. -/
theorem C1_adjust_weights_sum_100_witness :
    ([("sdk_quality", CriterionWeight.mk "sdk_quality" 15 15 "" [])] : WeightTable) ≠ [] ∧
    sumCurrent (adjust_weights true
      [("sdk_quality", CriterionWeight.mk "sdk_quality" 15 15 "" [])] [] {}).1 = 100 :=
  ⟨by decide, C1_adjust_weights_sum_100 _ [] {} (by decide)⟩

/-- C2: every `WeightAdjustment` recorded by `adjust_weights` has `weight_after` in
[5.0, 40.0] — the clamp is applied per adjustment inside `_process_discovery`,
before the single final renormalisation. -/
theorem C2_weight_after_bounds (initial_weights : WeightTable)
    (research_findings : List ResearchFindings) (context : Context) :
    ∀ adj ∈ (adjust_weights true initial_weights research_findings context).2,
      5 ≤ adj.weight_after ∧ adj.weight_after ≤ 40 := by
  unfold adjust_weights
  simp only [Bool.not_true, Bool.false_eq_true, if_false]
  exact foldl_apply_discovery_mem context _
    (fun d t adj h => process_discovery_bounds d t context adj h) _ _ (by simp)

/-- Witness for C2 on a run that records one concrete uptime adjustment. -/
theorem C2_weight_after_bounds_witness :
    (5 : ℚ) ≤ (WeightAdjustment.mk "uptime_reliability" "V has recent uptime issues"
        "had an outage last week" 15 25 ["SLA investigation"]).weight_after ∧
      (WeightAdjustment.mk "uptime_reliability" "V has recent uptime issues"
        "had an outage last week" 15 25 ["SLA investigation"]).weight_after ≤ 40 :=
  C2_weight_after_bounds (get_initial_weights {})
    [{ vendor_name := "V", uptime_reliability := { analysis := "had an outage last week" } }] {}
    (WeightAdjustment.mk "uptime_reliability" "V has recent uptime issues"
      "had an outage last week" 15 25 ["SLA investigation"])
    (by with_unfolding_all decide)

/-! ### Claims C3, C10 (analysis scorer) -/

/-- C3: `_score_from_analysis` returns 5.0 on missing/empty text and otherwise
counts the fixed positive and negative keyword sets in the lowercased text
(substring match), swaps the counts when `inverse` is set, and returns
`7 + min(favorable, 3)` when favorable exceeds unfavorable,
`5 - min(unfavorable, 4)` when unfavorable exceeds favorable, and 6 otherwise,
clamped to [1.0, 10.0]. -/
theorem C3_score_from_analysis_spec (analysis : String) (inverse : Bool) :
    score_from_analysis analysis inverse =
      if analysis = "" then 5
      else
        let positive_count := (positive_words.filter
          (fun word => substrOf word (strToLower analysis))).length
        let negative_count := (negative_words.filter
          (fun word => substrOf word (strToLower analysis))).length
        let favorable := if inverse then negative_count else positive_count
        let unfavorable := if inverse then positive_count else negative_count
        max 1 (min 10
          (if unfavorable < favorable then 7 + ((min favorable 3 : ℕ) : ℚ)
           else if favorable < unfavorable then 5 - ((min unfavorable 4 : ℕ) : ℚ)
           else 6)) := by
  simp [score_from_analysis, mul_one]

/-- The clamped scoring arithmetic only attains the eight values
{1, 2, 3, 4, 6, 8, 9, 10}. -/
theorem score_formula_mem (p n : ℕ) :
    (max 1 (min 10 (if n < p then 7 + ((min p 3 : ℕ) : ℚ) * 1
      else if p < n then 5 - ((min n 4 : ℕ) : ℚ) * 1 else 6))) ∈
      ([1, 2, 3, 4, 6, 8, 9, 10] : List ℚ) := by
  by_cases h1 : n < p
  · rw [if_pos h1]
    have h2 : 1 ≤ min p 3 := le_min (by omega) (by omega)
    have h3 : min p 3 ≤ 3 := min_le_right _ _
    set m := min p 3 with hm
    clear_value m
    interval_cases m <;> with_unfolding_all decide
  · rw [if_neg h1]
    by_cases h2 : p < n
    · rw [if_pos h2]
      have h3 : 1 ≤ min n 4 := le_min (by omega) (by omega)
      have h4 : min n 4 ≤ 4 := min_le_right _ _
      set m := min n 4 with hm
      clear_value m
      interval_cases m <;> with_unfolding_all decide
    · rw [if_neg h2]
      with_unfolding_all decide

/-- C10: on nonempty analysis text the score always lies in
{1.0, 2.0, 3.0, 4.0, 6.0, 8.0, 9.0, 10.0}; in particular it is never 5.0 (which is
reserved for missing data) and never 7.0, so a score meeting the 7.0 strength
threshold is necessarily at least 8.0. -/
theorem C10_score_value_set (analysis : String) (inverse : Bool) (h : analysis ≠ "") :
    score_from_analysis analysis inverse ∈ ([1, 2, 3, 4, 6, 8, 9, 10] : List ℚ) ∧
    score_from_analysis analysis inverse ≠ 5 ∧
    score_from_analysis analysis inverse ≠ 7 ∧
    (7 ≤ score_from_analysis analysis inverse → 8 ≤ score_from_analysis analysis inverse) := by
  have hmem : score_from_analysis analysis inverse ∈ ([1, 2, 3, 4, 6, 8, 9, 10] : List ℚ) := by
    unfold score_from_analysis
    rw [if_neg h]
    exact score_formula_mem _ _
  simp only [List.mem_cons, List.not_mem_nil, or_false] at hmem
  refine ⟨?_, ?_, ?_, ?_⟩
  · simp only [List.mem_cons, List.not_mem_nil, or_false]
    exact hmem
  · rcases hmem with h1|h1|h1|h1|h1|h1|h1|h1 <;> rw [h1] <;> norm_num
  · rcases hmem with h1|h1|h1|h1|h1|h1|h1|h1 <;> rw [h1] <;> norm_num
  · rcases hmem with h1|h1|h1|h1|h1|h1|h1|h1 <;> rw [h1] <;> intro h7 <;> norm_num at h7 ⊢

/-- Witness for C10 on the one-word analysis "great". -/
theorem C10_score_value_set_witness :
    ("great" : String) ≠ "" ∧
    score_from_analysis "great" false ∈ ([1, 2, 3, 4, 6, 8, 9, 10] : List ℚ) :=
  ⟨by decide, (C10_score_value_set "great" false (by decide)).1⟩

/-! ### Claims C7, C4 (vendor ranker) -/

/-- Filtering on key membership and looking up with a junk default computes the same
sum as an option-valued lookup contributing zero when the key is absent. -/
theorem weighted_sum_filter_eq (weights : WeightTable) (cs : List (String × ℚ)) :
    ((cs.filter (fun p => wtContains weights p.1)).map
      (fun p => p.2 * (((wtLookup weights p.1).getD default).current_weight / 100))).sum =
    (cs.map (fun p =>
      match wtLookup weights p.1 with
      | some cw => p.2 * (cw.current_weight / 100)
      | none => 0)).sum := by
  induction cs with
  | nil => rfl
  | cons c cs ih =>
    rw [List.filter_cons]
    cases hl : wtLookup weights c.1 with
    | none =>
      have hc : wtContains weights c.1 = false := by simp [wtContains, hl]
      simp [hc, hl, ih]
    | some cw =>
      have hc : wtContains weights c.1 = true := by simp [wtContains, hl]
      simp [hc, hl, ih]

/-- C7: a vendor's weighted total is the sum over criteria present in both the score
map and the weight table of `score × current_weight / 100`; a criterion present in
only one of the two maps contributes exactly zero (the embedding is total, so no
lookup can fail). -/
theorem C7_weighted_total_both_maps (findings : ResearchFindings) (weights : WeightTable) :
    (score_vendor weights findings).weighted_score =
      ((criterionScoresOf findings).map (fun p =>
        match wtLookup weights p.1 with
        | some cw => p.2 * (cw.current_weight / 100)
        | none => 0)).sum := by
  unfold score_vendor
  exact weighted_sum_filter_eq weights (criterionScoresOf findings)

/-- C4: the vendor ranking is sorted descending by weighted total, and two vendor
scores with equal weighted totals keep the relative order they had in the unsorted
per-candidate list (stability of the sort). -/
theorem C4_ranking_sorted_stable (research_findings : List ResearchFindings)
    (weights : WeightTable) :
    (score_vendors research_findings weights).Pairwise vs_desc ∧
    (∀ a b : VendorScore,
      List.Sublist [a, b] (vendor_scores_list research_findings weights) →
      a.weighted_score = b.weighted_score →
      List.Sublist [a, b] (score_vendors research_findings weights)) := by
  constructor
  · exact List.sorted_insertionSort vs_desc (vendor_scores_list research_findings weights)
  · intro a b hsub heq
    exact List.pair_sublist_insertionSort (le_of_eq heq.symm) hsub

/-- Concrete findings for the C4 witness: two vendors with identical (empty)
analyses, hence tied weighted totals. -/
def c4findings : List ResearchFindings := [{ vendor_name := "A" }, { vendor_name := "B" }]

/-- The default weight table, used by the C4 witness. -/
def c4weights : WeightTable := get_initial_weights {}

/-- The first vendor score of the C4 witness run. -/
def c4a : VendorScore := score_vendor c4weights { vendor_name := "A" }

/-- The second vendor score of the C4 witness run. -/
def c4b : VendorScore := score_vendor c4weights { vendor_name := "B" }

/-- Witness for C4: the tied pair keeps its input order in the ranking. -/
theorem C4_ranking_sorted_stable_witness :
    (score_vendors c4findings c4weights).Pairwise vs_desc ∧
    List.Sublist [c4a, c4b] (score_vendors c4findings c4weights) :=
  ⟨(C4_ranking_sorted_stable c4findings c4weights).1,
   (C4_ranking_sorted_stable c4findings c4weights).2 c4a c4b
     (by with_unfolding_all decide) (by with_unfolding_all decide)⟩

/-! ### Claim C5 (comparison matrix) -/

/-- C5 counterexample: already on the default weight table, the criterion
`vendor_health` has final weight 5.0 (at least the claimed 1.0 threshold) yet
receives no row in the rendered matrix, because `_generate_comparison_matrix`
keeps only the top 8 criteria (`sorted_weights[:8]`). -/
theorem C5_matrix_counterexample :
    (1 : ℚ) ≤ ((wtLookup (get_initial_weights {}) "vendor_health").getD default).current_weight ∧
    "vendor_health" ∉ (matrix_criteria (get_initial_weights {})).map (fun p => p.1) ∧
    (generate_comparison_matrix_lines
        [score_vendor (get_initial_weights {}) { vendor_name := "V" }]
        (get_initial_weights {})).all
      (fun row => !(strStarts row "| Vendor Health (")) = true := by
  refine ⟨by with_unfolding_all decide, by with_unfolding_all decide, ?_⟩
  with_unfolding_all decide

/-- C5 (amended): the comparison matrix has one row per criterion that is both among
the top 8 by final weight and of weight at least 1.0%; rows are ordered by
descending final weight, each criterion row shows every candidate's score, and a
final row shows every candidate's weighted total.  A criterion is omitted exactly
when its weight is below 1.0% or it falls outside the top 8. -/
theorem C5_matrix_rows_amended (vendor_scores : List VendorScore) (weights : WeightTable) :
    (∀ p ∈ matrix_criteria weights, 1 ≤ p.2.current_weight) ∧
    (matrix_criteria weights).Pairwise weight_desc ∧
    (∀ p ∈ (List.insertionSort weight_desc weights).take 8,
      1 ≤ p.2.current_weight → p ∈ matrix_criteria weights) ∧
    generate_comparison_matrix_lines vendor_scores weights =
      ["| Criterion (Weight) | " ++
          strJoin " | " (vendor_scores.map (fun v => v.vendor_name)) ++ " |",
        "|" ++ strRepeat "---|" (vendor_scores.length + 1)] ++
      (matrix_criteria weights).map (matrix_row vendor_scores) ++
      ["|---|" ++ strRepeat "---|" vendor_scores.length,
        "| **Weighted Score** | " ++
          strJoin " | " (vendor_scores.map
            (fun v => "**" ++ fmt1 v.weighted_score ++ "/10**")) ++ " |"] ∧
    generate_comparison_matrix vendor_scores weights =
      strJoin "\n" (generate_comparison_matrix_lines vendor_scores weights) := by
  refine ⟨?_, ?_, ?_, rfl, rfl⟩
  · intro p hp
    have hm := List.mem_filter.mp hp
    have hb := hm.2
    simp only [Bool.not_eq_true', decide_eq_false_iff_not, not_lt] at hb
    exact hb
  · have hs : (List.insertionSort weight_desc weights).Pairwise weight_desc :=
      List.sorted_insertionSort weight_desc weights
    exact List.Pairwise.sublist ((List.filter_sublist _).trans (List.take_sublist _ _)) hs
  · intro p hp h1
    refine List.mem_filter.mpr ⟨hp, ?_⟩
    simp only [Bool.not_eq_true', decide_eq_false_iff_not, not_lt]
    exact h1

/-- A weight-table entry used to instantiate the C5 witness. -/
def c5entry : String × CriterionWeight :=
  ("sdk_quality", CriterionWeight.mk "sdk_quality" 15 15 "" [])

/-- Witness for C5 at the default weight table. -/
theorem C5_matrix_rows_amended_witness : (1 : ℚ) ≤ c5entry.2.current_weight :=
  (C5_matrix_rows_amended [] (get_initial_weights {})).1 c5entry
    (by with_unfolding_all decide)

/-! ### Claim C6 (oracle fallback) -/

/-- A line without a recognisable recommended-vendor marker leaves an empty
`recommended_vendor` field empty. -/
theorem parse_line_keeps_empty_rv (st : ParseState) (raw_line : String)
    (hline : substrOf "RECOMMENDED VENDOR:" (strToUpper (pyStrip raw_line)) = false)
    (hst : st.recommended_vendor = "") :
    (parse_line st raw_line).recommended_vendor = "" := by
  unfold parse_line
  rw [if_neg (by simp [hline])]
  split_ifs <;> simp [hst]

/-- The whole parsing loop leaves an empty `recommended_vendor` field empty when no
line carries the marker. -/
theorem parse_fold_rv_empty (lines : List String) (st : ParseState)
    (h : ∀ line ∈ lines, substrOf "RECOMMENDED VENDOR:" (strToUpper (pyStrip line)) = false)
    (hst : st.recommended_vendor = "") :
    (lines.foldl parse_line st).recommended_vendor = "" := by
  induction lines generalizing st with
  | nil => exact hst
  | cons l ls ih =>
    rw [List.foldl_cons]
    exact ih _ (fun x hx => h x (List.mem_cons_of_mem _ hx))
      (parse_line_keeps_empty_rv st l (h l (List.mem_cons_self _ _)) hst)

/-- C6: when no line of the oracle text contains a recognisable
`RECOMMENDED VENDOR:` marker and the (ranked, descending) vendor-score list is
nonempty, the parsed recommendation falls back to the first — hence
highest-weighted — vendor score, with the templated rationale referencing its
weighted total. -/
theorem C6_oracle_fallback (recommendation_text : String) (context : Context)
    (candidates : List String) (research_findings : List ResearchFindings)
    (key_discoveries : List KeyDiscovery) (weight_adjustments : List WeightAdjustment)
    (final_weights : WeightTable) (vendor_scores : List VendorScore)
    (comparison_matrix : String) (hidden_risks : List VendorRisk)
    (hmark : ∀ line ∈ splitLines recommendation_text,
      substrOf "RECOMMENDED VENDOR:" (strToUpper (pyStrip line)) = false)
    (hne : vendor_scores ≠ [])
    (hsorted : vendor_scores.Pairwise vs_desc) :
    (parse_recommendation recommendation_text context candidates research_findings
        key_discoveries weight_adjustments final_weights vendor_scores comparison_matrix
        hidden_risks).recommended_vendor = vendor_scores.headI.vendor_name ∧
    (∀ v ∈ vendor_scores, v.weighted_score ≤ vendor_scores.headI.weighted_score) ∧
    (parse_recommendation recommendation_text context candidates research_findings
        key_discoveries weight_adjustments final_weights vendor_scores comparison_matrix
        hidden_risks).rationale =
      pyStrip ("Recommended based on highest weighted score (" ++
        fmt1 vendor_scores.headI.weighted_score ++ "/10)") := by
  have hrv : ((splitLines recommendation_text).foldl parse_line {}).recommended_vendor = "" :=
    parse_fold_rv_empty _ _ hmark rfl
  have hvs : vendor_scores.isEmpty = false := by
    cases vendor_scores with
    | nil => exact absurd rfl hne
    | cons v t => rfl
  refine ⟨?_, ?_, ?_⟩
  · unfold parse_recommendation
    simp [hrv, hvs]
  · intro v hv
    cases vendor_scores with
    | nil => exact absurd rfl hne
    | cons v0 t =>
      rcases List.mem_cons.mp hv with rfl | hv2
      · exact le_refl _
      · exact (List.pairwise_cons.mp hsorted).1 v hv2
  · unfold parse_recommendation
    simp [hrv, hvs]

/-- The concrete ranked vendor scores of the C6 witness. -/
def c6vs : List VendorScore :=
  [⟨"A", [], 7, [], [], []⟩, ⟨"B", [], 5, [], [], []⟩]

/-- Witness for C6 on oracle text with no marker line. -/
theorem C6_oracle_fallback_witness :
    (parse_recommendation "hello\nworld" {} [] [] [] [] [] c6vs "" []).recommended_vendor =
        "A" ∧
    (parse_recommendation "hello\nworld" {} [] [] [] [] [] c6vs "" []).rationale =
        "Recommended based on highest weighted score (7.0/10)" := by
  have h := C6_oracle_fallback "hello\nworld" {} [] [] [] [] [] c6vs "" []
    (by decide) (by decide) (by decide)
  refine ⟨h.1.trans (by decide), h.2.2.trans (by with_unfolding_all decide)⟩

/-! ### Claim C8 (initial weights) -/

/-- The context of the C8 counterexample: compliance requirements plus a "security"
priority, so both adjustment branches of `get_initial_weights` fire. -/
def c8context : Context := { priorities := ["security"], compliance := ["SOC2"] }

set_option maxRecDepth 16000 in
/-- C8 counterexample: with compliance requirements declared and a "security"
priority, `uptime_reliability` ends at 1775/113 (about 15.99), strictly above its
documented default of 15.0 — so not every non-compliance criterion is scaled down
proportionally; the table still sums to 100. -/
theorem C8_initial_weights_counterexample :
    c8context.compliance.isEmpty = false ∧
    ((wtLookup (get_initial_weights c8context) "uptime_reliability").getD
        default).current_weight = 1775 / 113 ∧
    ¬ ((wtLookup (get_initial_weights c8context) "uptime_reliability").getD
        default).current_weight ≤ (default_weights.lookup "uptime_reliability").getD 0 ∧
    sumCurrent (get_initial_weights c8context) = 100 := by
  refine ⟨by decide, by with_unfolding_all decide, by with_unfolding_all decide, ?_⟩
  with_unfolding_all decide

/-- C8 (amended): every initial weight table sums to exactly 100; with no compliance
requirements and no security/fintech signal the table equals the documented
defaults; with compliance requirements the compliance criterion is nonzero, and —
when no security/fintech signal also fires — every other criterion is scaled by
exactly 85/100. -/
theorem C8_initial_weights_amended (context : Context) :
    sumCurrent (get_initial_weights context) = 100 ∧
    (context.compliance.isEmpty = true → security_signal context = false →
      get_initial_weights context =
        default_weights.map (fun p => (p.1, CriterionWeight.mk p.1 p.2 p.2 "" []))) ∧
    (context.compliance.isEmpty = false →
      ((wtLookup (get_initial_weights context) "compliance").getD
        default).current_weight ≠ 0) ∧
    (context.compliance.isEmpty = false → security_signal context = false →
      ∀ p ∈ get_initial_weights context, p.1 ≠ "compliance" →
        p.2.current_weight = ((default_weights.lookup p.1).getD 0) * (85 / 100)) := by
  unfold get_initial_weights
  cases hc : context.compliance.isEmpty <;> cases hs : security_signal context
  case false.false =>
    refine ⟨by with_unfolding_all decide, ?_, ?_, ?_⟩
    · intro h _
      exact absurd h (by decide)
    · intro _
      with_unfolding_all decide
    · intro _ _
      with_unfolding_all decide
  case false.true =>
    refine ⟨by with_unfolding_all decide, ?_, ?_, ?_⟩
    · intro h _
      exact absurd h (by decide)
    · intro _
      with_unfolding_all decide
    · intro _ h
      exact absurd h (by decide)
  case true.false =>
    refine ⟨by with_unfolding_all decide, ?_, ?_, ?_⟩
    · intro _ _
      with_unfolding_all decide
    · intro h
      exact absurd h (by decide)
    · intro h _
      exact absurd h (by decide)
  case true.true =>
    refine ⟨by with_unfolding_all decide, ?_, ?_, ?_⟩
    · intro _ h
      exact absurd h (by decide)
    · intro h
      exact absurd h (by decide)
    · intro h _
      exact absurd h (by decide)

/-- Witness for C8 at two concrete contexts (empty, and compliance-declaring). -/
theorem C8_initial_weights_amended_witness :
    sumCurrent (get_initial_weights {}) = 100 ∧
    get_initial_weights {} =
      default_weights.map (fun p => (p.1, CriterionWeight.mk p.1 p.2 p.2 "" [])) ∧
    ((wtLookup (get_initial_weights { compliance := ["SOC2"] }) "compliance").getD
      default).current_weight ≠ 0 :=
  ⟨(C8_initial_weights_amended {}).1,
   (C8_initial_weights_amended {}).2.1 (by decide) (by decide),
   (C8_initial_weights_amended { compliance := ["SOC2"] }).2.2.1 (by decide)⟩

/-! ### Claim C9 (priority multiplier) -/

/-- The discovery of the C9 counterexample: a missing-SDK finding affecting
`integration_complexity`. -/
def c9discovery : Discovery :=
  ⟨"missing_sdk", "V", "V missing SDK for Go", "No official support", "integration_complexity"⟩

/-- The context of the C9 counterexample: the declared priority
"integration complexity" matches the criterion's display name but not its key. -/
def c9context : Context := { priorities := ["integration complexity"] }

/-- C9 counterexample: the priority "integration complexity" is a case-insensitive
substring of the display name "Integration Complexity", so the claim demands the
multiplied delta 8 × 1.5 = 12 — but the code compares against the underscored
internal identifier and returns the unmultiplied base delta 8. -/
theorem C9_display_name_counterexample :
    substrOf (strToLower "integration complexity")
      (strToLower (criterion_display c9discovery.affected_criterion)) = true ∧
    calculate_adjustment_amount c9discovery c9context = 8 ∧
    ((8 : ℚ) ≠ 8 * 1.5) := by
  refine ⟨by decide, by with_unfolding_all decide, by with_unfolding_all decide⟩

/-- C9 (amended): the applied delta is the fixed base delta for the discovery kind,
multiplied by 1.5 exactly when some declared priority is a case-insensitive
substring of the affected criterion's internal identifier (for example, a priority
containing "integration" raises the missing-capability delta from 8 to 12). -/
theorem C9_adjustment_amount_amended (discovery : Discovery) (context : Context) :
    calculate_adjustment_amount discovery context =
      (if context.priorities.any (fun priority =>
          substrOf (strToLower priority) (strToLower discovery.affected_criterion)) then
        ((base_adjustments.lookup discovery.type).getD 5) * 1.5
      else
        ((base_adjustments.lookup discovery.type).getD 5)) ∧
    calculate_adjustment_amount
      ⟨"missing_sdk", "V", "V missing SDK for Go", "No official support",
        "integration_complexity"⟩
      { priorities := ["integration"] } = 12 := by
  constructor
  · rfl
  · with_unfolding_all decide

end VendorEval
